import Mathlib

/-!
Verification development for the TRA announcement temporal-extraction engine
(`src/utils/date_utils.py` and `src/parsers/content_parser.py`).

Texts are embedded as `List Char`.  Python `re` patterns are embedded as
values of an explicit regular-expression AST `RE`, evaluated by a
backtracking matcher `reM` that mirrors Python's leftmost / greedy / lazy
preference order.  Machine dates (`datetime`) are embedded as plain records
of naturals; operations that can raise `ValueError` in Python
(`datetime.replace`, the `datetime` constructor) return `Option`.
-/

namespace Pao

/-! ## Character predicates (Python `\d`, `\s`, `.`) -/

def isDig (c : Char) : Bool := '0' ≤ c && c ≤ '9'

def isSpc (c : Char) : Bool :=
  c = ' ' || c = '\t' || c = '\n' || c = '\r' || c = '\x0b' || c = '\x0c'

def digitsToNat (l : List Char) : Nat :=
  l.foldl (fun a c => a * 10 + (c.toNat - 48)) 0

/-! ## Regular-expression AST -/

inductive RE where
  | eps : RE
  | anyc : RE
  | lit : Char → RE
  | cls : List Char → RE
  | ncls : List Char → RE
  | digit : RE
  | space : RE
  | rng : Char → Char → RE
  | seq : RE → RE → RE
  | alt : RE → RE → RE
  | rep : RE → Nat → Nat → Bool → RE
  | grp : Nat → RE → RE
deriving Repr

/-- Capture environment: most recent binding of a group number first. -/
abbrev Caps := List (Nat × List Char)

def capGet (caps : Caps) (n : Nat) : Option (List Char) :=
  (caps.find? (fun p => p.1 == n)).map (fun p => p.2)

def mOr {α : Type} (a b : Option α) : Option α :=
  match a with
  | some x => some x
  | none => b

/-- Backtracking matcher in continuation style.  `rep _ lo hi lazy` is a
bounded repetition; greedy repetitions try the longer extension first,
lazy ones the continuation first, alternation prefers its left branch —
exactly Python `re` backtracking order. -/
def reM : Nat → RE → List Char → Caps →
    (List Char → Caps → Option (List Char × Caps)) → Option (List Char × Caps)
  | 0, _, _, _, _ => none
  | _ + 1, RE.eps, s, caps, k => k s caps
  | _ + 1, RE.anyc, s, caps, k =>
    match s with
    | [] => none
    | c :: t => if c = '\n' then none else k t caps
  | _ + 1, RE.lit c, s, caps, k =>
    match s with
    | [] => none
    | c' :: t => if c' = c then k t caps else none
  | _ + 1, RE.cls cs, s, caps, k =>
    match s with
    | [] => none
    | c :: t => if cs.contains c then k t caps else none
  | _ + 1, RE.ncls cs, s, caps, k =>
    match s with
    | [] => none
    | c :: t => if cs.contains c then none else k t caps
  | _ + 1, RE.digit, s, caps, k =>
    match s with
    | [] => none
    | c :: t => if isDig c then k t caps else none
  | _ + 1, RE.space, s, caps, k =>
    match s with
    | [] => none
    | c :: t => if isSpc c then k t caps else none
  | _ + 1, RE.rng lo hi, s, caps, k =>
    match s with
    | [] => none
    | c :: t => if lo ≤ c && c ≤ hi then k t caps else none
  | f + 1, RE.seq a b, s, caps, k =>
    reM f a s caps (fun s' caps' => reM f b s' caps' k)
  | f + 1, RE.alt a b, s, caps, k =>
    mOr (reM f a s caps k) (reM f b s caps k)
  | f + 1, RE.grp n a, s, caps, k =>
    reM f a s caps (fun s' caps' =>
      k s' ((n, s.take (s.length - s'.length)) :: caps'))
  | f + 1, RE.rep a lo hi lz, s, caps, k =>
    if 0 < lo then
      reM f a s caps (fun s' caps' => reM f (RE.rep a (lo - 1) (hi - 1) lz) s' caps' k)
    else if hi = 0 then k s caps
    else if lz then
      mOr (k s caps)
        (reM f a s caps (fun s' caps' => reM f (RE.rep a 0 (hi - 1) lz) s' caps' k))
    else
      mOr (reM f a s caps (fun s' caps' => reM f (RE.rep a 0 (hi - 1) lz) s' caps' k))
        (k s caps)

def FUEL : Nat := 1000000

/-- Try to match `r` at the start of `s`; on success return the remainder
and the captures. -/
def tryAt (r : RE) (s : List Char) : Option (List Char × Caps) :=
  reM FUEL r s [] (fun rest caps => some (rest, caps))

/-- A match result: text before the match, the matched span, the text
after, and the captures. -/
structure MRes where
  pre : List Char
  mat : List Char
  post : List Char
  caps : Caps
deriving Repr

/-- `re.search`: leftmost match wins. -/
def searchAux (r : RE) : List Char → List Char → Option MRes
  | preRev, [] =>
    match tryAt r [] with
    | some (_, caps) => some ⟨preRev.reverse, [], [], caps⟩
    | none => none
  | preRev, c :: t =>
    match tryAt r (c :: t) with
    | some (rest, caps) =>
      some ⟨preRev.reverse, (c :: t).take ((c :: t).length - rest.length), rest, caps⟩
    | none => searchAux r (c :: preRev) t

def reSearch (r : RE) (s : List Char) : Option MRes := searchAux r [] s

/-- `re.finditer`: successive non-overlapping leftmost matches.  `pre` of
each result is the full original text before the match. -/
def findAllAux (r : RE) : Nat → List Char → List Char → List MRes
  | 0, _, _ => []
  | f + 1, doneRev, s =>
    match searchAux r [] s with
    | none => []
    | some m =>
      let full : MRes := ⟨doneRev.reverse ++ m.pre, m.mat, m.post, m.caps⟩
      match m.mat with
      | [] =>
        match m.post with
        | [] => [full]
        | c :: t => full :: findAllAux r f (c :: (m.pre.reverse ++ doneRev)) t
      | _ => full :: findAllAux r f (m.mat.reverse ++ (m.pre.reverse ++ doneRev)) m.post

def reFindAll (r : RE) (s : List Char) : List MRes :=
  findAllAux r (s.length + 1) [] s

/-- `re.sub(r, '', s)`: delete every non-overlapping leftmost match. -/
def subAux (r : RE) : Nat → List Char → List Char
  | 0, s => s
  | f + 1, s =>
    match searchAux r [] s with
    | none => s
    | some m =>
      match m.mat with
      | [] => m.pre ++ m.post
      | _ => m.pre ++ subAux r f m.post

def reSub (r : RE) (s : List Char) : List Char := subAux r (s.length + 1) s

/-! ## Substring containment (Python `in` on strings) -/

def startsW : List Char → List Char → Bool
  | [], _ => true
  | _ :: _, [] => false
  | a :: as, b :: bs => a = b && startsW as bs

def occursIn (needle : List Char) : List Char → Bool
  | [] => startsW needle []
  | c :: t => startsW needle (c :: t) || occursIn needle t

/-- `text[match.end() : match.end() + n]` -/
def ctxAfter (m : MRes) (n : Nat) : List Char := m.post.take n

/-- `text[max(0, match.start() - n) : match.start()]` -/
def ctxBefore (m : MRes) (n : Nat) : List Char := m.pre.drop (m.pre.length - n)

/-! ## RE construction helpers -/

def rcat (l : List RE) : RE := l.foldr RE.seq RE.eps

def ror (l : List RE) : RE :=
  match l with
  | [] => RE.eps
  | c :: t => t.foldl RE.alt c

def rstr (s : String) : RE := rcat (s.data.map RE.lit)

def rcls (s : String) : RE := RE.cls s.data

def rncls (s : String) : RE := RE.ncls s.data

def ropt (r : RE) : RE := RE.rep r 0 1 false

/-- Bound standing in for an unbounded `*` / `*?`; larger than every text
used in this development, hence equivalent to the unbounded form there. -/
def STAR : Nat := 600

def anyLazy (n : Nat) : RE := RE.rep RE.anyc 0 n true

def anyStarLazy : RE := anyLazy STAR

def anyGreedy (n : Nat) : RE := RE.rep RE.anyc 0 n false

def spaceStar : RE := RE.rep RE.space 0 STAR false

def d12 : RE := RE.rep RE.digit 1 2 false

def d2 : RE := RE.rep RE.digit 2 2 false

def d4 : RE := RE.rep RE.digit 4 4 false

def dPlus : RE := RE.rep RE.digit 1 STAR false

def g (n : Nat) (r : RE) : RE := RE.grp n r

/-! ## Dates and datetimes (fixed Asia/Taipei offset, kept implicit) -/

structure Date where
  y : Nat
  m : Nat
  d : Nat
deriving Repr, DecidableEq

def isLeap (y : Nat) : Bool := y % 4 == 0 && (y % 100 != 0 || y % 400 == 0)

def daysInMonth (y m : Nat) : Nat :=
  if m = 2 then (if isLeap y then 29 else 28)
  else if m = 4 || m = 6 || m = 9 || m = 11 then 30
  else 31

/-- Whether `datetime.strptime(_, "%Y-%m-%d")` accepts the date. -/
def Date.valid (a : Date) : Bool :=
  1 ≤ a.y && a.y ≤ 9999 && 1 ≤ a.m && a.m ≤ 12 && 1 ≤ a.d && a.d ≤ daysInMonth a.y a.m

structure DT where
  y : Nat
  m : Nat
  d : Nat
  hh : Nat
  mi : Nat
  ss : Nat
deriving Repr, DecidableEq

/-- Midnight on the anchor date (the `ref_date` of the source). -/
def dtOf (a : Date) : DT := ⟨a.y, a.m, a.d, 0, 0, 0⟩

/-- `+ timedelta(days=1)`; `none` models the `OverflowError` past year 9999. -/
def nextDayO (t : DT) : Option DT :=
  if t.d + 1 ≤ daysInMonth t.y t.m then some { t with d := t.d + 1 }
  else if t.m = 12 then
    (if t.y = 9999 then none else some { t with y := t.y + 1, m := 1, d := 1 })
  else some { t with m := t.m + 1, d := 1 }

/-- `datetime.replace(day=d)`; `none` models `ValueError`. -/
def replDay (t : DT) (d : Nat) : Option DT :=
  if 1 ≤ d && d ≤ daysInMonth t.y t.m then some { t with d := d } else none

/-- `datetime.replace(hour=h, minute=mi, second=sec, microsecond=0)`. -/
def replHMS (t : DT) (h mi sec : Nat) : Option DT :=
  if h ≤ 23 && mi ≤ 59 && sec ≤ 59 then some { t with hh := h, mi := mi, ss := sec }
  else none

def replHM (t : DT) (h mi : Nat) : Option DT := replHMS t h mi 0

/-- The `datetime(year, month, day, hour, minute)` constructor. -/
def mkDT (y m d h mi : Nat) : Option DT :=
  if 1 ≤ y && y ≤ 9999 && 1 ≤ m && m ≤ 12 && 1 ≤ d && d ≤ daysInMonth y m
      && h ≤ 23 && mi ≤ 59 then
    some ⟨y, m, d, h, mi, 0⟩
  else none

def dtKey (t : DT) : List Nat := [t.y, t.m, t.d, t.hh, t.mi, t.ss]

def natListLe : List Nat → List Nat → Bool
  | [], _ => true
  | _ :: _, [] => false
  | a :: as, b :: bs => a < b || (a = b && natListLe as bs)

def natListLt : List Nat → List Nat → Bool
  | [], [] => false
  | [], _ :: _ => true
  | _ :: _, [] => false
  | a :: as, b :: bs => a < b || (a = b && natListLt as bs)

/-- `datetime` comparison `a <= b` (same timezone). -/
def dtLe (a b : DT) : Bool := natListLe (dtKey a) (dtKey b)

/-- `datetime` comparison `a < b`. -/
def dtLt (a b : DT) : Bool := natListLt (dtKey a) (dtKey b)

/-- `datetime.replace(day=d, hour=h, minute=mi, second=0, microsecond=0)`
as one combined call (a single `ValueError` on any bad component). -/
def replDHM (t : DT) (d h mi : Nat) : Option DT :=
  if 1 ≤ d && d ≤ daysInMonth t.y t.m && h ≤ 23 && mi ≤ 59 then
    some { t with d := d, hh := h, mi := mi, ss := 0 }
  else none

/-- "Next day at h:mi:ss": `ref + timedelta(days=1)` then
`replace(hour=h, minute=mi, second=ss, microsecond=0)`; both failure modes
(`OverflowError`, `ValueError`) yield `none`. -/
def nextDayAt (t : DT) (h mi ss : Nat) : Option DT :=
  match nextDayO t with
  | none => none
  | some r => replHMS r h mi ss

/-! ## `date_utils.parse_resumption_time` — pattern transcriptions

Each `RE` value carries the Python regex it transcribes in its comment.
Step functions return `Option (Option DT)`:
`none` = this pattern does not produce a `return` (fall through to the next
pattern); `some r` = the Python function returns here, where `r = none`
models an uncaught exception reaching the function-level `except` (which
returns `None`). -/

/-- Group value as Python `int(match.group(n)) if match.group(n) else 0`. -/
def grpNat (m : MRes) (n : Nat) : Nat := digitsToNat ((capGet m.caps n).getD [])

abbrev SRes := Option (Option DT)

def sRet (t : DT) : SRes := some (some t)

def sOr (a b : SRes) : SRes :=
  match a with
  | some r => some r
  | none => b

/-- Shared ending: `24時` → next day `00:minute`, otherwise
`ref.replace(hour=hour, minute=minute, second=0, microsecond=0)`
(`replace` not guarded by a local `try`). -/
def retHM (ref : DT) (hour minu : Nat) : SRes :=
  if hour = 24 then some (nextDayAt ref 0 minu 0)
  else some (replHM ref hour minu)

/-- `發[佈布]日期[：:]\s*\d{4}[/\-年]\d{1,2}[/\-月]\d{1,2}日?(?:\s*[上下]午)?\s*\d{1,2}[：:]\d{2}` -/
def stripPubRE : RE := rcat [RE.lit '發', rcls "佈布", rstr "日期", rcls "：:", spaceStar,
  d4, rcls "/-年", d12, rcls "/-月", d12, ropt (RE.lit '日'),
  ropt (rcat [spaceStar, rcls "上下", RE.lit '午']), spaceStar, d12, rcls "：:", d2]

/-- `發生時間[：:]\s*\d{4}[/\-年]\d{1,2}[/\-月]\d{1,2}日?(?:\s*[上下]午)?\s*\d{1,2}[：:]\d{2}` -/
def stripIncRE : RE := rcat [rstr "發生時間", rcls "：:", spaceStar,
  d4, rcls "/-年", d12, rcls "/-月", d12, ropt (RE.lit '日'),
  ropt (rcat [spaceStar, rcls "上下", RE.lit '午']), spaceStar, d12, rcls "：:", d2]

/-- Pattern 0: `預[計估][\s]?(\d{1,2})[：:時](\d{2})?` -/
def p0RE : RE := rcat [RE.lit '預', rcls "計估", ropt RE.space,
  g 1 d12, rcls "：:時", ropt (g 2 d2)]

/-- Pattern 0 exclusion 1: `\([^)]*次\).*?到.*?站` -/
def p0ExclArrRE : RE := rcat [RE.lit '(', RE.rep (rncls ")") 0 STAR false, RE.lit '次',
  RE.lit ')', anyStarLazy, RE.lit '到', anyStarLazy, RE.lit '站']

/-- Pattern 0 exclusion 2: `首班車.*?恢復` -/
def p0FtA_RE : RE := rcat [rstr "首班車", anyStarLazy, rstr "恢復"]

/-- Pattern 0 exclusion 2: `恢復.*?首班車` -/
def p0FtB_RE : RE := rcat [rstr "恢復", anyStarLazy, rstr "首班車"]

def step0 (text : List Char) (ref : DT) : SRes :=
  match reSearch p0RE text with
  | none => none
  | some m =>
    if (reSearch p0ExclArrRE (ctxAfter m 50)).isSome then none
    else if (reSearch p0FtA_RE text).isSome || (reSearch p0FtB_RE text).isSome then none
    else retHM ref (grpNat m 1) (grpNat m 2)

/-- Pattern 1: `[今本]日\s*(\d{1,2})[：:時](\d{2})?` -/
def p1RE : RE := rcat [rcls "今本", RE.lit '日', spaceStar,
  g 1 d12, rcls "：:時", ropt (g 2 d2)]

def p1Excl : List String := ["發布", "發車", "開車", "到站", "成立", "應變", "後停駛"]

def step1 (text : List Char) (ref : DT) : SRes :=
  match reSearch p1RE text with
  | none => none
  | some m =>
    if p1Excl.any (fun kw => occursIn kw.data (ctxAfter m 20)) then none
    else retHM ref (grpNat m 1) (grpNat m 2)

/-- Pattern 1.5: `今\((\d+)\)日\s*(\d{1,2})[：:時](\d{2})?` -/
def p15RE : RE := rcat [RE.lit '今', RE.lit '(', g 1 dPlus, RE.lit ')', RE.lit '日',
  spaceStar, g 2 d12, rcls "：:時", ropt (g 3 d2)]

def p15Excl : List String :=
  ["發布", "發車", "開車", "到站", "成立", "應變", "停駛", "後", "前", "試運轉", "完成試車"]

def step15 (text : List Char) (ref : DT) : SRes :=
  match reSearch p15RE text with
  | none => none
  | some m =>
    if p15Excl.any (fun kw => occursIn kw.data (ctxAfter m 50)) then none
    else
      match replDHM ref (grpNat m 1) (grpNat m 2) (grpNat m 3) with
      | none => none
      | some t => sRet t

/-- Pattern 2: `明(?:\((\d+)\))?日\s*(\d{1,2})[：:時](\d{2})?` -/
def p2RE : RE := rcat [RE.lit '明', ropt (rcat [RE.lit '(', g 1 dPlus, RE.lit ')']),
  RE.lit '日', spaceStar, g 2 d12, rcls "：:時", ropt (g 3 d2)]

def p2Excl : List String := ["前停駛", "前不通", "前之", "前的", "資訊", "發布"]

def step2 (text : List Char) (ref : DT) : SRes :=
  match reSearch p2RE text with
  | none => none
  | some m =>
    if p2Excl.any (fun kw => occursIn kw.data (ctxAfter m 15)) then none
    else
      let hour := grpNat m 2
      let minu := grpNat m 3
      let tomorrowHM : SRes := some (nextDayAt ref hour minu 0)
      match capGet m.caps 1 with
      | some ds =>
        (match replDHM ref (digitsToNat ds) hour minu with
         | some t => sRet t
         | none => tomorrowHM)
      | none => tomorrowHM

/-- Pattern 2.5a: `明(?:\((\d+)\))?日.{0,10}?首班車` -/
def p25TomRE : RE := rcat [RE.lit '明', ropt (rcat [RE.lit '(', g 1 dPlus, RE.lit ')']),
  RE.lit '日', anyLazy 10, rstr "首班車"]

def step25a (text : List Char) (ref : DT) : SRes :=
  match reSearch p25TomRE text with
  | none => none
  | some m =>
    let tomorrow530 : SRes := some (nextDayAt ref 5 30 0)
    match capGet m.caps 1 with
    | some ds =>
      (match replDHM ref (digitsToNat ds) 5 30 with
       | some t => sRet t
       | none => tomorrow530)
    | none => tomorrow530

/-- Pattern 2.5b: `今日.{0,10}?首班車` (shuttle exclusion `接駁` in the 30
characters after the match). -/
def p25TodRE : RE := rcat [rstr "今日", anyLazy 10, rstr "首班車"]

def step25b (text : List Char) (ref : DT) : SRes :=
  match reSearch p25TodRE text with
  | none => none
  | some m =>
    if occursIn "接駁".data (ctxAfter m 30) then none
    else some (replHM ref 5 30)

/-- Pattern 2.5c: `(\d{1,2})月(\d{1,2})日(?:\([一二三四五六日]\))?.{0,10}?首班車` -/
def ftMD_RE : RE := rcat [g 1 d12, RE.lit '月', g 2 d12, RE.lit '日',
  ropt (rcat [RE.lit '(', rcls "一二三四五六日", RE.lit ')']), anyLazy 10, rstr "首班車"]

def step25c (text : List Char) (ref : DT) : SRes :=
  match reSearch ftMD_RE text with
  | none => none
  | some m =>
    match mkDT ref.y (grpNat m 1) (grpNat m 2) 5 30 with
    | none => none
    | some t => if dtLe ref t then sRet t else none

/-- Pattern 2.6a: `明(?:\((\d+)\))?日.{0,10}?末班車` -/
def p26TomRE : RE := rcat [RE.lit '明', ropt (rcat [RE.lit '(', g 1 dPlus, RE.lit ')']),
  RE.lit '日', anyLazy 10, rstr "末班車"]

def step26a (text : List Char) (ref : DT) : SRes :=
  match reSearch p26TomRE text with
  | none => none
  | some m =>
    let tomorrow2330 : SRes := some (nextDayAt ref 23 30 0)
    match capGet m.caps 1 with
    | some ds =>
      (match replDHM ref (digitsToNat ds) 23 30 with
       | some t => sRet t
       | none => tomorrow2330)
    | none => tomorrow2330

/-- Pattern 2.6b: `今日.{0,10}?末班車` -/
def p26TodRE : RE := rcat [rstr "今日", anyLazy 10, rstr "末班車"]

def step26b (text : List Char) (ref : DT) : SRes :=
  match reSearch p26TodRE text with
  | none => none
  | some _ => some (replHM ref 23 30)

/-- Pattern 2.65: `(\d{1,2})月(\d{1,2})日至(\d{1,2})月(\d{1,2})日.{0,20}?(?:暫停|停駛|停運|不通)` -/
def p265RE : RE := rcat [g 1 d12, RE.lit '月', g 2 d12, RE.lit '日', RE.lit '至',
  g 3 d12, RE.lit '月', g 4 d12, RE.lit '日', anyLazy 20,
  ror [rstr "暫停", rstr "停駛", rstr "停運", rstr "不通"]]

def step265 (text : List Char) (ref : DT) : SRes :=
  match reSearch p265RE text with
  | none => none
  | some m =>
    match mkDT ref.y (grpNat m 3) (grpNat m 4) 23 59 with
    | none => none
    | some t => if dtLe ref t then sRet t else none

/-- Pattern 2.7 trigger: `(\d{1,2})[時點]前([^後]{0,50}?)(?:停駛|不通)` -/
def p27RE : RE := rcat [g 1 d12, rcls "時點", RE.lit '前',
  g 2 (RE.rep (rncls "後") 0 50 true), ror [rstr "停駛", rstr "不通"]]

/-- Pattern 2.7 uncertainty filters: `俟.*?後`, `陸續.*?恢復`, `視.*?而定`, `待.*?確認` -/
def p27Uncert : List RE :=
  [rcat [RE.lit '俟', anyStarLazy, RE.lit '後'],
   rcat [rstr "陸續", anyStarLazy, rstr "恢復"],
   rcat [RE.lit '視', anyStarLazy, rstr "而定"],
   rcat [RE.lit '待', anyStarLazy, rstr "確認"]]

/-- `明\((\d{1,2})\)日` -/
def parenDayRE : RE := rcat [RE.lit '明', RE.lit '(', g 1 d12, RE.lit ')', RE.lit '日']

/-- `(?<!今)(?<!明)(\d{1,2})日`: leftmost position whose preceding character
is neither `今` nor `明`, with greedy 1–2 digits followed by `日`. -/
def expDayAux : Option Char → List Char → Option Nat
  | _, [] => none
  | prev, c :: t =>
    let ok := prev ≠ some '今' && prev ≠ some '明'
    let two : Option Nat :=
      match t with
      | c2 :: '日' :: _ => if isDig c2 then some (digitsToNat [c, c2]) else none
      | _ => none
    let one : Option Nat :=
      match t with
      | '日' :: _ => some (digitsToNat [c])
      | _ => none
    let here : Option Nat :=
      if ok && isDig c then
        (match two with
         | some v => some v
         | none => one)
      else none
    match here with
    | some v => some v
    | none => expDayAux (some c) t

def expDaySearch (s : List Char) : Option Nat := expDayAux none s

def step27 (text : List Char) (ref : DT) : SRes :=
  match reSearch p27RE text with
  | none => none
  | some m =>
    if p27Uncert.any (fun r => (reSearch r (ctxAfter m 100)).isSome) then none
    else
      let hour0 := grpNat m 1
      let addOne := hour0 = 24
      let hour := if addOne then 0 else hour0
      let ctx := ctxBefore m 100
      let paren := reSearch parenDayRE ctx
      -- Priority 3 (`明日` without parentheses, `replace` unguarded) and
      -- Priority 4 (default to today, `replace` unguarded)
      let prio34 : SRes :=
        if occursIn "明日".data ctx && paren.isNone then
          some (match nextDayO ref with
                | none => none
                | some tm =>
                  match replHM tm hour 0 with
                  | none => none
                  | some r => if addOne then nextDayO r else some r)
        else
          some (match replHM ref hour 0 with
                | none => none
                | some r => if addOne then nextDayO r else some r)
      -- Priority 2 (explicit `X日` with lookbehind, guarded by `try`)
      let prio2 : SRes :=
        match expDaySearch ctx with
        | none => prio34
        | some day =>
          match replDHM ref day hour 0 with
          | none => prio34
          | some r =>
            match (if addOne then nextDayO r else some r) with
            | none => some none
            | some r2 => if dtLe ref r2 then sRet r2 else prio34
      -- Priority 1 (`明(X)日`, guarded by `try`)
      match paren with
      | some pm =>
        (match replDHM ref (grpNat pm 1) hour 0 with
         | none => prio2
         | some r =>
           match (if addOne then nextDayO r else some r) with
           | none => some none
           | some r2 => sRet r2)
      | none => prio2

/-- Pattern 2.9: `(\d{1,2})[時點]以[前後].*?(?:停駛|不通|正常)` -/
def p29RE : RE := rcat [g 1 d12, rcls "時點", RE.lit '以', rcls "前後", anyStarLazy,
  ror [rstr "停駛", rstr "不通", rstr "正常"]]

def step29 (text : List Char) (ref : DT) : SRes :=
  match reSearch p29RE text with
  | none => none
  | some m =>
    if occursIn "正常".data m.mat
        && !(occursIn "停駛".data m.mat || occursIn "不通".data m.mat) then none
    else
      let hour := grpNat m 1
      let ctx := ctxBefore m 100
      let paren := reSearch parenDayRE ctx
      let last : SRes :=
        if occursIn "明日".data ctx && paren.isNone then
          some (nextDayAt ref hour 0 0)
        else some (replHM ref hour 0)
      let rest : SRes :=
        match expDaySearch ctx with
        | none => last
        | some day =>
          match replDHM ref day hour 0 with
          | none => last
          | some r => if dtLe ref r then sRet r else last
      match paren with
      | some pm =>
        (match replDHM ref (grpNat pm 1) hour 0 with
         | none => rest
         | some r => sRet r)
      | none => rest

/-- Pattern 2.10 forward:
`(?:於|預計)?[\s]?(\d{1,2})[：:時](\d{2})?.{0,10}?恢復(?:單線)?(?:雙向)?通車` -/
def p210FwdRE : RE := rcat [ropt (ror [rstr "於", rstr "預計"]), ropt RE.space,
  g 1 d12, rcls "：:時", ropt (g 2 d2), anyLazy 10,
  rstr "恢復", ropt (rstr "單線"), ropt (rstr "雙向"), rstr "通車"]

/-- Pattern 2.10 backward:
`恢復(?:單線)?(?:雙向)?通車.{0,10}?(\d{1,2})[：:時](\d{2})?` -/
def p210BwdRE : RE := rcat [rstr "恢復", ropt (rstr "單線"), ropt (rstr "雙向"), rstr "通車",
  anyLazy 10, g 1 d12, rcls "：:時", ropt (g 2 d2)]

def pairLtB (a b : Nat × Nat) : Bool := a.1 < b.1 || (a.1 = b.1 && a.2 < b.2)

/-- Fold of the Pattern 2.10 `finditer` loop: keep the earliest (hour, minute)
among matches whose ±20-character context does not mention `接駁`. -/
def p210Fold (best : Option (Nat × Nat)) (ms : List MRes) : Option (Nat × Nat) :=
  match ms with
  | [] => best
  | m :: rest =>
    if occursIn "接駁".data (ctxBefore m 20 ++ m.mat ++ ctxAfter m 20) then
      p210Fold best rest
    else
      let cur := (grpNat m 1, grpNat m 2)
      match best with
      | none => p210Fold (some cur) rest
      | some b => p210Fold (if pairLtB cur b then some cur else some b) rest

def step210 (text : List Char) (ref : DT) : SRes :=
  let best := p210Fold (p210Fold none (reFindAll p210FwdRE text)) (reFindAll p210BwdRE text)
  match best with
  | none => none
  | some (h, mi) => retHM ref h mi

/-- Pattern 2.11: `預估至[\s]?(\d{1,2})[時點]止` -/
def p211RE : RE := rcat [rstr "預估至", ropt RE.space, g 1 d12, rcls "時點", RE.lit '止']

def p211Kws : List String := ["中斷", "不通", "停駛", "影響", "搶修", "接駁", "行駛"]

def step211 (text : List Char) (ref : DT) : SRes :=
  match reSearch p211RE text with
  | none => none
  | some m =>
    let ctx := ctxBefore m 50 ++ m.mat ++ ctxAfter m 50
    if p211Kws.any (fun kw => occursIn kw.data ctx) then retHM ref (grpNat m 1) 0
    else none

/-- Pattern 3 per keyword `kw`:
`kw.{0,30}?(\d{1,2})月(\d{1,2})日(?:[凌上下午首末班車\s]{0,10})?(\d{1,2})[時:](\d{2})?` -/
def p3RE (kw : String) : RE := rcat [rstr kw, anyLazy 30, g 1 d12, RE.lit '月',
  g 2 d12, RE.lit '日',
  RE.rep (RE.cls ("凌上下午首末班車".data ++ [' ', '\t', '\n', '\r', '\x0b', '\x0c'])) 0 10 false,
  g 3 d12, rcls "時:", ropt (g 4 d2)]

def p3Kws : List String := ["預計", "恢復", "復駛", "通車", "修復完成", "營運"]

def p3Excl : List String := ["發生", "地震", "影響", "淹水", "坍方", "中斷"]

def step3 : List String → List Char → DT → SRes
  | [], _, _ => none
  | kw :: rest, text, ref =>
    match reSearch (p3RE kw) text with
    | none => step3 rest text ref
    | some m =>
      if p3Excl.any (fun e => occursIn e.data (ctxAfter m 20)) then step3 rest text ref
      else
        match mkDT ref.y (grpNat m 1) (grpNat m 2) (grpNat m 3) (grpNat m 4) with
        | none => step3 rest text ref
        | some t => if dtLt t ref then step3 rest text ref else sRet t

/-- Pattern 4/5 uncertainty keywords:
`陸續`, `俟`, `待.*?確認`, `視.*?而定`, `機動`, `暫定` (all via `re.search`). -/
def p45Uncert : List RE :=
  [rstr "陸續", RE.lit '俟',
   rcat [RE.lit '待', anyStarLazy, rstr "確認"],
   rcat [RE.lit '視', anyStarLazy, rstr "而定"],
   rstr "機動", rstr "暫定"]

def hasUncertainty (text : List Char) : Bool :=
  p45Uncert.any (fun r => (reSearch r text).isSome)

def resumIndicators : List String := ["恢復通車", "恢復行駛", "恢復營運"]

def step4 (text : List Char) (ref : DT) : SRes :=
  if occursIn "今日".data text && (reSearch p1RE text).isNone then
    if hasUncertainty text then none
    else if resumIndicators.any (fun kw => occursIn kw.data text) then
      some (replHMS ref 23 59 59)
    else none
  else none

/-- `明(?:\(\d+\))?日` -/
def m5RE : RE := rcat [RE.lit '明', ropt (rcat [RE.lit '(', dPlus, RE.lit ')']), RE.lit '日']

/-- `(?:首|末)班車` -/
def fmTrainRE : RE := rcat [rcls "首末", rstr "班車"]

def step5 (text : List Char) (ref : DT) : SRes :=
  if (reSearch m5RE text).isSome && (reSearch p2RE text).isNone then
    if (reSearch fmTrainRE text).isSome then none
    else if hasUncertainty text then none
    else if resumIndicators.any (fun kw => occursIn kw.data text) then
      some (nextDayAt ref 23 59 59)
    else none
  else none

def step6 (text : List Char) (ref : DT) : SRes :=
  if occursIn "凌晨".data text then
    if occursIn "明日".data text || occursIn "明天".data text then
      some (nextDayAt ref 5 0 0)
    else some (replHM ref 5 0)
  else none

/-- Pattern 7 keywords, simple ones first, then the compound
`預計.{0,20}?恢復` / `復駛` / `通車` / `搶通` forms. -/
def p7Kws : List RE :=
  [rstr "預計", rstr "搶通", rstr "修復完成", rstr "搶修完成", rstr "搶修完畢",
   rstr "恢復", rstr "復駛", rstr "通車", rstr "營運",
   rcat [rstr "預計", anyLazy 20, rstr "恢復"],
   rcat [rstr "預計", anyLazy 20, rstr "復駛"],
   rcat [rstr "預計", anyLazy 20, rstr "通車"],
   rcat [rstr "預計", anyLazy 20, rstr "搶通"]]

/-- `{kw}.{0,10}?(\d{1,2})[：:時](\d{2})` -/
def p7Fwd (kw : RE) : RE := rcat [kw, anyLazy 10, g 1 d12, rcls "：:時", g 2 d2]

/-- `(\d{1,2})[：:時](\d{2}).{0,10}?{kw}` -/
def p7Bwd (kw : RE) : RE := rcat [g 1 d12, rcls "：:時", g 2 d2, anyLazy 10, kw]

/-- Proximity exclusions (searched in the ±30-character context):
`接駁`, `完成試車`, `試運轉`, `完成.*?試運轉` -/
def p7Prox : List RE :=
  [rstr "接駁", rstr "完成試車", rstr "試運轉",
   rcat [rstr "完成", anyStarLazy, rstr "試運轉"]]

/-- General exclusions (searched in the ±50-character context). -/
def p7Gen : List RE :=
  [rcat [RE.lit '次', spaceStar, rcls "(（", anyStarLazy, rcls "=開"],
   rcat [rcls "成發", RE.lit '立'],
   rstr "應變", rstr "發車", rstr "開車", rstr "發布",
   rcat [RE.lit '到', anyGreedy 5, RE.lit '站'],
   rcat [RE.lit '開', anyGreedy 5, RE.lit '站'],
   rcat [rstr "時前", anyStarLazy, rstr "停駛"],
   rcat [rstr "時後", anyStarLazy, rstr "停駛"],
   rcat [rstr "停駛", anyStarLazy, rstr "時前"],
   rcat [rstr "停駛", anyStarLazy, rstr "時後"]]

def step7 : List RE → List Char → DT → SRes
  | [], _, _ => none
  | kw :: rest, text, ref =>
    let mo :=
      match reSearch (p7Fwd kw) text with
      | some m => some m
      | none => reSearch (p7Bwd kw) text
    match mo with
    | none => step7 rest text ref
    | some m =>
      let short := ctxBefore m 30 ++ m.mat ++ ctxAfter m 30
      let long := ctxBefore m 50 ++ m.mat ++ ctxAfter m 50
      if p7Prox.any (fun r => (reSearch r short).isSome) then step7 rest text ref
      else if p7Gen.any (fun r => (reSearch r long).isSome) then step7 rest text ref
      else some (replHM ref (grpNat m 1) (grpNat m 2))

/-- The chain of recognizers strictly after Pattern 2 (first-train rules
onward): what the resolver would consult if a Pattern-2 candidate were
discarded instead of resolved. -/
def prtTail25 (t : List Char) (ref : DT) : SRes :=
  sOr (step25a t ref) (sOr (step25b t ref) (sOr (step25c t ref) (sOr (step26a t ref)
  (sOr (step26b t ref) (sOr (step265 t ref) (sOr (step27 t ref) (sOr (step29 t ref)
  (sOr (step210 t ref) (sOr (step211 t ref) (sOr (step3 p3Kws t ref) (sOr (step4 t ref)
  (sOr (step5 t ref) (sOr (step6 t ref) (step7 p7Kws t ref))))))))))))))

/-- The body of `parse_resumption_time` after pre-processing, evaluated on
the stripped text against the anchored reference instant: the full
priority chain of patterns 0, 1, 1.5, 2, then `prtTail25`. -/
def prtCore (text0 : List Char) (ref : DT) : Option DT :=
  let t := reSub stripIncRE (reSub stripPubRE text0)
  let chain :=
    sOr (step0 t ref) (sOr (step1 t ref) (sOr (step15 t ref) (sOr (step2 t ref)
    (prtTail25 t ref))))
  match chain with
  | some r => r
  | none => none

/-- `date_utils.parse_resumption_time(text, publish_date)` on a character
list.  An anchor date `strptime` rejects raises, is caught by the
function-level `except`, and yields `None`. -/
def prtL (text : List Char) (pd : Date) : Option DT :=
  if text.isEmpty then none
  else if pd.valid then prtCore text (dtOf pd)
  else none

/-- `date_utils.parse_resumption_time(text, publish_date)`. -/
def parse_resumption_time (textS : String) (pd : Date) : Option DT :=
  prtL textS.data pd

/-! ## `ContentParser` (`src/parsers/content_parser.py`)

The parser is instantiated with `config_path = "config/regex_patterns.yaml"`;
no such file exists in the repository, so `_load_patterns` returns `{}` and
the config-driven extractors see empty pattern lists (the station extractor
falls back to its hard-coded default pattern).  `parse` receives text already
flattened from HTML; the HTML-to-text step is the excluded collaborator and
is modelled as the identity on plain text. -/

def system_keywords : List String :=
  ["系統維護", "系統停機", "網站維護", "網站服務", "訂票系統", "訂位系統", "會員服務系統", "e訂通"]

def train_operation_keywords : List String :=
  ["列車", "班車", "停駛", "通車", "行駛", "路線", "鐵路", "軌道", "月台"]

/-- `ContentParser._is_non_train_announcement(title, text)`. -/
def is_non_train_announcement (title text : List Char) : Bool :=
  if system_keywords.any (fun kw => occursIn kw.data title) then true
  else
    let hasSys := system_keywords.any (fun kw => occursIn kw.data text)
    let hasTrain := train_operation_keywords.any (fun kw => occursIn kw.data text)
    if hasSys && !hasTrain then
      occursIn "暫停官網".data text || occursIn "暫停網站".data text
    else false

def event_type_keywords : List (String × String) :=
  [("颱風", "Typhoon"), ("台風", "Typhoon"), ("豪雨", "Heavy_Rain"), ("大雨", "Heavy_Rain"),
   ("暴雨", "Heavy_Rain"), ("地震", "Earthquake"), ("落石", "Equipment_Failure"),
   ("出軌", "Equipment_Failure"), ("故障", "Equipment_Failure"), ("號誌", "Equipment_Failure"),
   ("電車線", "Equipment_Failure")]

/-- `ContentParser._extract_event_type` (dict iteration in insertion order). -/
def extract_event_type (text : List Char) : Option String :=
  (event_type_keywords.find? (fun p => occursIn p.1.data text)).map (fun p => p.2)

def status_keywords : List (String × String) :=
  [("停駛", "Suspended"), ("暫停", "Suspended"), ("中斷", "Suspended"),
   ("暫停營運", "Suspended"), ("部分", "Partial_Operation"), ("單線", "Resumed_Single_Track"),
   ("單線行車", "Resumed_Single_Track"), ("恢復行駛", "Resumed_Normal"),
   ("恢復通車", "Resumed_Normal"), ("恢復營運", "Resumed_Normal"), ("已排除", "Resumed_Normal")]

/-- `暫停官網`, `暫停網站`, `暫停.*?服務系統`, `暫停.*?訂[票位]`, `暫停.*?e訂通` -/
def nonTrainCtxREs : List RE :=
  [rstr "暫停官網", rstr "暫停網站",
   rcat [rstr "暫停", anyStarLazy, rstr "服務系統"],
   rcat [rstr "暫停", anyStarLazy, RE.lit '訂', rcls "票位"],
   rcat [rstr "暫停", anyStarLazy, rstr "e訂通"]]

/-- `暫停營運`, `暫停行駛`, `列車.*?暫停`, `暫停.*?列車` -/
def trainSuspREs : List RE :=
  [rstr "暫停營運", rstr "暫停行駛",
   rcat [rstr "列車", anyStarLazy, rstr "暫停"],
   rcat [rstr "暫停", anyStarLazy, rstr "列車"]]

def statusLoop : List (String × String) → List Char → Option String
  | [], _ => none
  | (kw, st) :: rest, text =>
    if occursIn kw.data text then
      if kw = "暫停" then
        (if nonTrainCtxREs.any (fun r => (reSearch r text).isSome)
            && !(trainSuspREs.any (fun r => (reSearch r text).isSome)) then
          statusLoop rest text
        else some st)
      else some st
    else statusLoop rest text

/-- `ContentParser._extract_status` (its `title` parameter is unused). -/
def extract_status (text : List Char) : Option String := statusLoop status_keywords text

/-- Hard-coded default `station_pattern`: `([一-龥]{2,4})站`. -/
def stationRE : RE := rcat [g 1 (RE.rep (RE.rng '一' '龥') 2 4 false), RE.lit '站']

def station_blacklist : List String :=
  ["官網網", "停官網網", "網", "官網", "服務", "加油", "充電", "休息", "車", "總", "本", "各", "每", "全"]

def dedupBL : List String → List String → List String
  | [], _ => []
  | s :: rest, seen =>
    if seen.contains s || station_blacklist.contains s then dedupBL rest seen
    else s :: dedupBL rest (s :: seen)

/-- `ContentParser._extract_affected_stations`. -/
def extract_affected_stations (text : List Char) : List String :=
  dedupBL ((reFindAll stationRE text).map (fun m => String.mk ((capGet m.caps 1).getD []))) []

/-- `ContentParser._extract_report_version`: the loaded pattern set is empty,
so the loop body never runs and the result is always `None`. -/
def extract_report_version (_text : List Char) : Option String := none

/-- `ContentParser._extract_affected_lines`: `railway_lines` is empty, so the
result is always `[]`. -/
def extract_affected_lines (_text : List Char) : List String := []

/-! ### `_extract_predicted_time` -/

/-- `預計|預估` -/
def predMarkRE : RE := ror [rstr "預計", rstr "預估"]

/-- `已[於在][^。]{0,50}?恢復` -/
def acp1RE : RE := rcat [RE.lit '已', rcls "於在", RE.rep (rncls "。") 0 50 true, rstr "恢復"]

/-- `於[今本]\(?(\d+)?\)?日\s*\d{1,2}[：:時](?:\d{2})?(?:起|分)?[^。]{0,20}?恢復` -/
def acp2RE : RE := rcat [RE.lit '於', rcls "今本", ropt (RE.lit '('), ropt (g 1 dPlus),
  ropt (RE.lit ')'), RE.lit '日', spaceStar, d12, rcls "：:時", ropt d2,
  ropt (rcls "起分"), RE.rep (rncls "。") 0 20 true, rstr "恢復"]

/-- `於\s*\d{1,2}[：:時]\d{2}(?:分)?[^。]{0,10}?恢復(?:雙向)?通車` -/
def acp3RE : RE := rcat [RE.lit '於', spaceStar, d12, rcls "：:時", d2, ropt (RE.lit '分'),
  RE.rep (rncls "。") 0 10 true, rstr "恢復", ropt (rstr "雙向"), rstr "通車"]

/-- `於\s*\d{1,2}[：:時]\d{2}(?:分)?\s*搶修完[成畢]` -/
def acp4RE : RE := rcat [RE.lit '於', spaceStar, d12, rcls "：:時", d2, ropt (RE.lit '分'),
  spaceStar, rstr "搶修完", rcls "成畢"]

/-- `\d{1,2}[：:時]\d{2}(?:分)?[^。]{0,10}?恢復(?:雙向)?通車` -/
def acp5RE : RE := rcat [d12, rcls "：:時", d2, ropt (RE.lit '分'),
  RE.rep (rncls "。") 0 10 true, rstr "恢復", ropt (rstr "雙向"), rstr "通車"]

/-- `今\(\d+\)日\s*\d{1,2}[：:時]\d{2}(?:分)?起[^。]{0,30}?鐵路接駁服務` -/
def acp6RE : RE := rcat [RE.lit '今', RE.lit '(', dPlus, RE.lit ')', RE.lit '日', spaceStar,
  d12, rcls "：:時", d2, ropt (RE.lit '分'), RE.lit '起',
  RE.rep (rncls "。") 0 30 true, rstr "鐵路接駁服務"]

def actual_completion_patterns : List RE := [acp1RE, acp2RE, acp3RE, acp4RE, acp5RE, acp6RE]

/-- The completion-indicator early return of `_extract_predicted_time`: it
fires only when no explicit `預計`/`預估` exists anywhere in the text and
some completion pattern's first match has no prediction marker in the 20
characters before it. -/
def completionEarlyReturn (text : List Char) : Bool :=
  !(reSearch predMarkRE text).isSome &&
  actual_completion_patterns.any (fun r =>
    match reSearch r text with
    | none => false
    | some m => !(reSearch predMarkRE (ctxBefore m 20)).isSome)

def repair_report_keywords : List String :=
  ["搶修概況", "受損概況", "疏運應變措施", "提前搶通", "路線受損"]

def resumption_prediction_keywords : List String := ["預計恢復", "預估恢復"]

def shuttle_title_kws : List String := ["疏運", "接駁"]

/-- `ContentParser._extract_predicted_time(text, publish_date, title)`. -/
def extract_predicted_time (text : List Char) (pd : Date) (title : List Char) : Option DT :=
  if occursIn "列車行駛資訊".data title
      && !(["恢復", "復駛"].any (fun kw => occursIn kw.data title)) then none
  else if repair_report_keywords.any (fun kw => occursIn kw.data title)
      && !(resumption_prediction_keywords.any (fun kw => occursIn kw.data title)) then none
  else if shuttle_title_kws.any (fun kw => occursIn kw.data title)
      && !(["列車恢復", "恢復行駛", "恢復通車"].any (fun kw => occursIn kw.data title)) then none
  else if completionEarlyReturn text then none
  else prtL text pd

/-! ### `_extract_actual_time` -/

def resumed_keywords_title : List String := ["恢復正常行駛", "已恢復", "恢復通車", "恢復行駛"]

/-- `搶修完畢[^。]{0,30}?恢復` -/
def rkc2RE : RE := rcat [rstr "搶修完畢", RE.rep (rncls "。") 0 30 true, rstr "恢復"]

def resumed_keywords_content : List RE := [acp1RE, rkc2RE, acp3RE, acp4RE, acp5RE, acp6RE]

/-- `後[，,\s]{0,2}恢復` and `俟.*?後.*?恢復` -/
def conditionalREs : List RE :=
  [rcat [RE.lit '後',
     RE.rep (RE.cls ("，,".data ++ [' ', '\t', '\n', '\r', '\x0b', '\x0c'])) 0 2 false,
     rstr "恢復"],
   rcat [RE.lit '俟', anyStarLazy, RE.lit '後', anyStarLazy, rstr "恢復"]]

/-- The verification loop over `resumed_keywords_content`: the gate is
revoked when some pattern's first match has a prediction marker in the 20
characters before it, or conditional phrasing inside the matched text. -/
def contentMatchBad (text : List Char) : Bool :=
  resumed_keywords_content.any (fun r =>
    match reSearch r text with
    | none => false
    | some m =>
      (reSearch predMarkRE (ctxBefore m 20)).isSome
        || conditionalREs.any (fun cr => (reSearch cr m.mat).isSome))

def has_resumption_in_content (text : List Char) : Bool :=
  resumed_keywords_content.any (fun r => (reSearch r text).isSome) && !contentMatchBad text

def has_resumption_in_title (title : List Char) : Bool :=
  resumed_keywords_title.any (fun kw => occursIn kw.data title)

/-- `明\(\d+\)日.*恢復`, `明日.*恢復`, `\d+日.*恢復`, `預計.*恢復` (checked on the title). -/
def future_indicators : List RE :=
  [rcat [RE.lit '明', RE.lit '(', dPlus, RE.lit ')', RE.lit '日', anyGreedy STAR, rstr "恢復"],
   rcat [rstr "明日", anyGreedy STAR, rstr "恢復"],
   rcat [dPlus, RE.lit '日', anyGreedy STAR, rstr "恢復"],
   rcat [rstr "預計", anyGreedy STAR, rstr "恢復"]]

/-- Pattern 0a: `於[今本]\((\d+)\)日\s*(\d{1,2})[時:](\d{2})?起.*?恢復` -/
def pat0aRE : RE := rcat [RE.lit '於', rcls "今本", RE.lit '(', g 1 dPlus, RE.lit ')',
  RE.lit '日', spaceStar, g 2 d12, rcls "時:", ropt (g 3 d2), RE.lit '起',
  anyStarLazy, rstr "恢復"]

/-- `(\d{1,2})[時:](\d{2})?(?:分)?(?:起)?.*?恢復` -/
def titleP1RE : RE := rcat [g 1 d12, rcls "時:", ropt (g 2 d2), ropt (RE.lit '分'),
  ropt (RE.lit '起'), anyStarLazy, rstr "恢復"]

/-- `恢復.*?(\d{1,2})[時:](\d{2})?` -/
def titleP2RE : RE := rcat [rstr "恢復", anyStarLazy, g 1 d12, rcls "時:", ropt (g 2 d2)]

/-- `(\d{1,2})[時:](\d{2})(?:分)?[^。]{0,15}?恢復(?:雙向)?通車` -/
def cp1RE : RE := rcat [g 1 d12, rcls "時:", g 2 d2, ropt (RE.lit '分'),
  RE.rep (rncls "。") 0 15 true, rstr "恢復", ropt (rstr "雙向"), rstr "通車"]

/-- `於\s*(\d{1,2})[時:](\d{2})(?:分)?[^。]{0,15}?搶修完[成畢]` -/
def cp2RE : RE := rcat [RE.lit '於', spaceStar, g 1 d12, rcls "時:", g 2 d2, ropt (RE.lit '分'),
  RE.rep (rncls "。") 0 15 true, rstr "搶修完", rcls "成畢"]

/-- `今\(\d+\)日\s*(\d{1,2})[時:](\d{2})(?:分)?起[^。]{0,30}?鐵路接駁` -/
def cp3RE : RE := rcat [RE.lit '今', RE.lit '(', dPlus, RE.lit ')', RE.lit '日', spaceStar,
  g 1 d12, rcls "時:", g 2 d2, ropt (RE.lit '分'), RE.lit '起',
  RE.rep (rncls "。") 0 30 true, rstr "鐵路接駁"]

/-- `(\d{1,2})[時:](\d{2})(?:分)?起[^。]{0,10}?恢復` -/
def cp4RE : RE := rcat [g 1 d12, rcls "時:", g 2 d2, ropt (RE.lit '分'), RE.lit '起',
  RE.rep (rncls "。") 0 10 true, rstr "恢復"]

/-- `於\s*(\d{1,2})[時:](\d{2})(?:分)?[^。]{0,15}?恢復` -/
def cp5RE : RE := rcat [RE.lit '於', spaceStar, g 1 d12, rcls "時:", g 2 d2, ropt (RE.lit '分'),
  RE.rep (rncls "。") 0 15 true, rstr "恢復"]

/-- `已[於在][^。]{0,15}?(\d{1,2})[時:](\d{2})(?:分)?[^。]{0,15}?恢復` -/
def cp6RE : RE := rcat [RE.lit '已', rcls "於在", RE.rep (rncls "。") 0 15 true,
  g 1 d12, rcls "時:", g 2 d2, ropt (RE.lit '分'),
  RE.rep (rncls "。") 0 15 true, rstr "恢復"]

def content_patterns : List RE := [cp1RE, cp2RE, cp3RE, cp4RE, cp5RE, cp6RE]

/-- All (hour, minute) candidates of the `content_patterns` `finditer` loop,
pattern-major and position-minor, minus those with a prediction marker in
the 20 characters before the match. -/
def contentCandList (text : List Char) : List (Nat × Nat) :=
  ((content_patterns.map (fun r => reFindAll r text)).flatten).filterMap (fun m =>
    if (reSearch predMarkRE (ctxBefore m 20)).isSome then none
    else some (grpNat m 1, grpNat m 2))

/-- One step of the `earliest_time` fold: replace the best candidate only
when the new one is strictly smaller. -/
def stepMin (best : Option (Nat × Nat)) (c : Nat × Nat) : Option (Nat × Nat) :=
  match best with
  | none => some c
  | some b => if pairLtB c b then some c else some b

/-- The `earliest_time` fold of the `finditer` loop. -/
def earliestPair (l : List (Nat × Nat)) : Option (Nat × Nat) :=
  l.foldl stepMin none

/-- `發[佈布]日期[：:].{0,20}?[上下]午\s*(\d{1,2})[：:](\d{2})` -/
def pubTimeRE : RE := rcat [RE.lit '發', rcls "佈布", rstr "日期", rcls "：:", anyLazy 20,
  rcls "上下", RE.lit '午', spaceStar, g 1 d12, rcls "：:", g 2 d2]

/-- `ContentParser._extract_actual_time(text, publish_date, title)`.
`datetime.replace` calls outside a local `try` abort to the method-level
`except` (result `none`); the Pattern-0a `replace` is guarded and falls
through. -/
def extract_actual_time (text : List Char) (pd : Date) (title : List Char) : Option DT :=
  if !has_resumption_in_title title && !has_resumption_in_content text then none
  else if future_indicators.any (fun r => (reSearch r title).isSome) then none
  else if !pd.valid then none
  else
    let ref := dtOf pd
    let after0a : Option DT :=
      match reSearch titleP1RE title with
      | some m => replHM ref (grpNat m 1) (grpNat m 2)
      | none =>
        match reSearch titleP2RE title with
        | some m => replHM ref (grpNat m 1) (grpNat m 2)
        | none =>
          match earliestPair (contentCandList text) with
          | some (h, mi) => replHM ref h mi
          | none =>
            match reSearch pubTimeRE text with
            | some m =>
              let h0 := grpNat m 1
              let h :=
                if occursIn "下午".data (ctxBefore m 5 ++ m.mat) && h0 < 12 then h0 + 12
                else h0
              replHM ref h (grpNat m 2)
            | none => replHMS ref 23 59 59
    match reSearch pat0aRE title with
    | some m =>
      (match replDHM ref (grpNat m 1) (grpNat m 2) (grpNat m 3) with
       | some t => some t
       | none => after0a)
    | none => after0a

/-! ### `_identify_service_type` -/

/-- `恢復.*?通車|恢復.*?行駛|恢復正常|恢復營運` -/
def titleResumRE : RE := ror
  [rcat [rstr "恢復", anyStarLazy, rstr "通車"],
   rcat [rstr "恢復", anyStarLazy, rstr "行駛"],
   rstr "恢復正常", rstr "恢復營運"]

def title_shuttle_kws : List String := ["接駁服務", "接駁開始", "鐵路接駁"]

/-- `取消.*?接駁`, `停止.*?接駁`, `結束.*?接駁` -/
def cancellation_patterns : List RE :=
  [rcat [rstr "取消", anyStarLazy, rstr "接駁"],
   rcat [rstr "停止", anyStarLazy, rstr "接駁"],
   rcat [rstr "結束", anyStarLazy, rstr "接駁"]]

def shuttle_patterns : List RE :=
  [rstr "接駁服務", rstr "鐵路接駁", rstr "公路接駁",
   rcat [rstr "柴聯車", anyStarLazy, rstr "接駁"],
   rcat [rstr "接駁", anyStarLazy, rstr "柴聯車"],
   rstr "巴士接駁", rstr "接駁巴士"]

def partial_patterns : List (RE × String) :=
  [(rstr "單線雙向通車", "單線雙向通車"),
   (rcat [rstr "單線", anyStarLazy, rstr "行車"], "單線行車"),
   (rcat [rstr "部分", anyStarLazy, rstr "恢復"], "部分恢復"),
   (rcat [rstr "局部", anyStarLazy, rstr "通車"], "局部通車"),
   (rcat [rstr "區間", anyStarLazy, rstr "恢復"], "區間恢復")]

def normal_patterns : List RE :=
  [rstr "恢復正常", rstr "正常行駛", rstr "正常營運",
   rstr "恢復雙向通車", rstr "恢復行駛", rstr "恢復通車"]

/-- `ContentParser._identify_service_type(text, title)`. -/
def identify_service_type (text title : List Char) : Option String × Option String :=
  let full := title ++ ' ' :: text
  let titleResum := (reSearch titleResumRE title).isSome
  let titleShut := title_shuttle_kws.any (fun p => occursIn p.data title)
  let skipShut := titleResum && !titleShut
  let cancelled := cancellation_patterns.any (fun r => (reSearch r full).isSome)
  if !cancelled && !skipShut
      && shuttle_patterns.any (fun r => (reSearch r full).isSome) then
    let details :=
      if occursIn "柴聯車".data full then "柴聯車接駁"
      else if occursIn "公路".data full || occursIn "巴士".data full then "公路/巴士接駁"
      else "鐵路接駁服務"
    (some "shuttle_service", some details)
  else
    match partial_patterns.find? (fun p => (reSearch p.1 full).isSome) with
    | some p => (some "partial_operation", some p.2)
    | none =>
      if normal_patterns.any (fun r => (reSearch r full).isSome) then
        (some "normal_train", some "正常列車服務")
      else (some "normal_train", none)

/-! ### `parse` -/

/-- The keyword arguments `ContentParser.parse` passes to the
`ExtractedData(...)` constructor. -/
structure ParseResult where
  report_version : Option String
  event_type : Option String
  status : Option String
  affected_lines : List String
  affected_stations : List String
  predicted_resumption_time : Option DT
  actual_resumption_time : Option DT
  service_type : Option String
  service_details : Option String
deriving Repr, DecidableEq

def emptyParse : ParseResult := ⟨none, none, none, [], [], none, none, none, none⟩

/-- `ContentParser.parse(html, publish_date, title)` on the flattened text:
the non-train pre-check, the seven field extractions, and the service-type
derivation gated on the presence of an actual resumption time. -/
def parse (text : List Char) (pd : Date) (title : List Char) : ParseResult :=
  if is_non_train_announcement title text then emptyParse
  else
    let actual := extract_actual_time text pd title
    let sv := if actual.isSome then identify_service_type text title else (none, none)
    { report_version := extract_report_version text
      event_type := extract_event_type text
      status := extract_status text
      affected_lines := extract_affected_lines text
      affected_stations := extract_affected_stations text
      predicted_resumption_time := extract_predicted_time text pd title
      actual_resumption_time := actual
      service_type := sv.1
      service_details := sv.2 }

/-- The Pydantic model `ExtractedData` of `src/models/announcement.py`: it
declares no `service_type` or `service_details` field. -/
structure ExtractedData where
  report_version : Option String
  event_type : Option String
  status : Option String
  affected_lines : List String
  affected_stations : List String
  predicted_resumption_time : Option DT
  actual_resumption_time : Option DT
deriving Repr, DecidableEq

/-- Pydantic `ExtractedData(**kwargs)` under the default `extra = ignore`
configuration: keyword arguments that are not model fields — here
`service_type` and `service_details` — are silently discarded.  This is the
record `ContentParser.parse` actually returns. -/
def storedOf (r : ParseResult) : ExtractedData :=
  ⟨r.report_version, r.event_type, r.status, r.affected_lines, r.affected_stations,
   r.predicted_resumption_time, r.actual_resumption_time⟩

/-! ## Helper lemmas -/

lemma pairLtB_irrefl (a : Nat × Nat) : pairLtB a a = false := by
  simp [pairLtB]

lemma pairLtB_le_trans {c o b : Nat × Nat} (h1 : pairLtB c o = false)
    (h2 : pairLtB o b = false) : pairLtB c b = false := by
  simp only [pairLtB, Bool.or_eq_false_iff, Bool.and_eq_false_iff,
    decide_eq_false_iff_not, not_lt] at *
  omega

lemma pairLtB_lt_le {c o b : Nat × Nat} (h1 : pairLtB c o = true)
    (h2 : pairLtB c b = false) : pairLtB o b = false := by
  simp only [pairLtB, Bool.or_eq_true, Bool.and_eq_true, Bool.or_eq_false_iff,
    Bool.and_eq_false_iff, decide_eq_true_eq, decide_eq_false_iff_not, not_lt] at *
  omega

/-- Specification of the `earliest_time` fold: the result is drawn from the
list (or the initial accumulator) and no element is strictly smaller. -/
lemma foldMin_spec (l : List (Nat × Nat)) : ∀ (acc : Option (Nat × Nat)) (b : Nat × Nat),
    l.foldl stepMin acc = some b →
    (b ∈ l ∨ acc = some b) ∧ (∀ c ∈ l, pairLtB c b = false) ∧
      (∀ a, acc = some a → pairLtB a b = false) := by
  induction l with
  | nil =>
    intro acc b h
    simp only [List.foldl_nil] at h
    refine ⟨Or.inr h, by simp, ?_⟩
    intro a ha
    rw [h] at ha
    cases ha
    exact pairLtB_irrefl b
  | cons c rest ih =>
    intro acc b h
    simp only [List.foldl_cons] at h
    obtain ⟨hmem, hmin, hacc⟩ := ih (stepMin acc c) b h
    have hc : pairLtB c b = false := by
      cases hacc0 : acc with
      | none => exact hacc c (by simp [stepMin, hacc0])
      | some o =>
        cases hco : pairLtB c o with
        | true => exact hacc c (by simp [stepMin, hacc0, hco])
        | false =>
          have hob : pairLtB o b = false := hacc o (by simp [stepMin, hacc0, hco])
          exact pairLtB_le_trans hco hob
    refine ⟨?_, ?_, ?_⟩
    · rcases hmem with hb | hs
      · exact Or.inl (List.mem_cons_of_mem _ hb)
      · cases hacc0 : acc with
        | none =>
          rw [hacc0] at hs
          simp only [stepMin] at hs
          cases hs
          exact Or.inl (List.mem_cons_self c rest)
        | some o =>
          rw [hacc0] at hs
          simp only [stepMin] at hs
          cases hco : pairLtB c o with
          | true =>
            rw [hco] at hs
            simp at hs
            cases hs
            exact Or.inl (List.mem_cons_self c rest)
          | false =>
            rw [hco] at hs
            simp at hs
            exact Or.inr (congrArg some hs)
    · intro x hx
      rcases List.mem_cons.mp hx with hxc | hx'
      · rw [hxc]; exact hc
      · exact hmin x hx'
    · intro a ha
      cases hca : pairLtB c a with
      | true =>
        have h2 : pairLtB c b = false := hacc c (by simp [stepMin, ha, hca])
        exact pairLtB_lt_le hca h2
      | false => exact hacc a (by simp [stepMin, ha, hca])

lemma earliestPair_spec (l : List (Nat × Nat)) (b : Nat × Nat)
    (h : earliestPair l = some b) :
    b ∈ l ∧ ∀ c ∈ l, pairLtB c b = false := by
  obtain ⟨hmem, hmin, _⟩ := foldMin_spec l none b h
  refine ⟨?_, hmin⟩
  rcases hmem with hb | hb
  · exact hb
  · cases hb

/-- `_identify_service_type` always returns one of the three types
(shuttle > partial > normal priority order). -/
lemma identify_first (text title : List Char) :
    (identify_service_type text title).1 = some "shuttle_service" ∨
    (identify_service_type text title).1 = some "partial_operation" ∨
    (identify_service_type text title).1 = some "normal_train" := by
  unfold identify_service_type
  dsimp only
  split
  · exact Or.inl rfl
  · split
    · exact Or.inr (Or.inl rfl)
    · split
      · exact Or.inr (Or.inr rfl)
      · exact Or.inr (Or.inr rfl)

lemma identify_st_isSome (text title : List Char) :
    ((identify_service_type text title).1).isSome = true := by
  rcases identify_first text title with h | h | h <;> rw [h] <;> rfl

/-- In every record `parse` builds, the service type is populated exactly
when the actual resumption time is. -/
lemma parse_service_iff (text title : List Char) (pd : Date) :
    ((parse text pd title).service_type).isSome =
      ((parse text pd title).actual_resumption_time).isSome := by
  unfold parse
  split
  · rfl
  · dsimp only
    cases h : extract_actual_time text pd title with
    | none => simp [h]
    | some t => simp [h, identify_st_isSome]

lemma parse_service_mem (text title : List Char) (pd : Date) :
    (parse text pd title).service_type = none ∨
    (parse text pd title).service_type = some "shuttle_service" ∨
    (parse text pd title).service_type = some "partial_operation" ∨
    (parse text pd title).service_type = some "normal_train" := by
  unfold parse
  split
  · exact Or.inl rfl
  · dsimp only
    cases h : extract_actual_time text pd title with
    | none => exact Or.inl (by simp [h])
    | some t =>
      rcases identify_first text title with hi | hi | hi
      · exact Or.inr (Or.inl (by simp [h, hi]))
      · exact Or.inr (Or.inr (Or.inl (by simp [h, hi])))
      · exact Or.inr (Or.inr (Or.inr (by simp [h, hi])))

/-! ## Claim theorems -/

def phasedTxt : List Char := "已於16:48恢復單線，預計18時恢復雙線".data

def incidentTxt : List Char := "發生時間：114年4月12日16時05分".data

/-- C5: for 「12時前停駛」 the resolver returns 12:00 on the anchor day (a
"suspended before X" phrase resolves to resumption at X), while for
「12時以前正常行駛」 — the time boundary followed by the normal-operation
verb instead of a suspend/blocked verb — it returns no match. -/
theorem c5_before_after_asymmetry (pd : Date) (hv : pd.valid = true) :
    prtL "12時前停駛".data pd = some ⟨pd.y, pd.m, pd.d, 12, 0, 0⟩ ∧
    prtL "12時以前正常行駛".data pd = none := by
  constructor <;> (unfold prtL; rw [hv]; rfl)

/-- Witness for C5 at the anchor 2025-08-13. -/
theorem c5_before_after_asymmetry_witness :
    Date.valid ⟨2025, 8, 13⟩ = true ∧
    (prtL "12時前停駛".data ⟨2025, 8, 13⟩ = some ⟨2025, 8, 13, 12, 0, 0⟩ ∧
     prtL "12時以前正常行駛".data ⟨2025, 8, 13⟩ = none) :=
  ⟨rfl, c5_before_after_asymmetry ⟨2025, 8, 13⟩ rfl⟩

/-- C6 counterexample: for 「明(31)日10時恢復」 with anchor 2025-06-15, day 31
is invalid in June (`replace(day=31)` raises), no recognizer after Pattern 2
matches the text, yet the resolver returns anchor+1 at 10:00 — the invalid
parenthetical candidate is not discarded to later recognizers, it falls back
to the naive tomorrow computation. -/
theorem c6_counterexample :
    parse_resumption_time "明(31)日10時恢復" ⟨2025, 6, 15⟩ = some ⟨2025, 6, 16, 10, 0, 0⟩ ∧
    replDay (dtOf ⟨2025, 6, 15⟩) 31 = none ∧
    prtTail25 "明(31)日10時恢復".data (dtOf ⟨2025, 6, 15⟩) = none :=
  ⟨rfl, rfl, rfl⟩

/-- C6 as amended: a valid parenthetical day override (今(N)日 or 明(N)日)
replaces the naive anchor-day / anchor+1 computation with day N; an invalid
override never raises, and in the 今(N)日 rule the candidate falls through
to later recognizers, while in the 明(N)日 rule it falls back to the naive
anchor+1 computation at the matched time. -/
theorem c6_paren_day_override_amended :
    parse_resumption_time "今(20)日13時恢復通車" ⟨2025, 6, 15⟩ = some ⟨2025, 6, 20, 13, 0, 0⟩ ∧
    parse_resumption_time "明(23)日10時恢復" ⟨2025, 6, 15⟩ = some ⟨2025, 6, 23, 10, 0, 0⟩ ∧
    parse_resumption_time "今(31)日13時恢復通車" ⟨2025, 6, 15⟩ = some ⟨2025, 6, 15, 13, 0, 0⟩ ∧
    step210 "今(31)日13時恢復通車".data (dtOf ⟨2025, 6, 15⟩) =
      some (some ⟨2025, 6, 15, 13, 0, 0⟩) ∧
    parse_resumption_time "明(31)日10時恢復" ⟨2025, 6, 15⟩ = some ⟨2025, 6, 16, 10, 0, 0⟩ :=
  ⟨rfl, rfl, rfl, rfl, rfl⟩

/-- C7: the incident-occurrence timestamp text yields no match — for any
valid anchor — for the bare resolver and for both extraction roles. -/
theorem c7_incident_timestamps_never_leak (pd : Date) (hv : pd.valid = true) :
    prtL incidentTxt pd = none ∧
    extract_predicted_time incidentTxt pd [] = none ∧
    extract_actual_time incidentTxt pd [] = none := by
  refine ⟨?_, ?_, rfl⟩
  · unfold prtL; rw [hv]; rfl
  · unfold extract_predicted_time prtL; rw [hv]; rfl

/-- Witness for C7 at the anchor 2025-08-13. -/
theorem c7_incident_timestamps_never_leak_witness :
    Date.valid ⟨2025, 8, 13⟩ = true ∧
    (prtL incidentTxt ⟨2025, 8, 13⟩ = none ∧
     extract_predicted_time incidentTxt ⟨2025, 8, 13⟩ [] = none ∧
     extract_actual_time incidentTxt ⟨2025, 8, 13⟩ [] = none) :=
  ⟨rfl, c7_incident_timestamps_never_leak ⟨2025, 8, 13⟩ rfl⟩

/-- C8 counterexample: in 「預計25時搶修，今日恢復通車」 Pattern 0 fires with
the out-of-range hour 25; the `replace` raises and the function-level
handler returns `None` — the failure does not fall through, although the
bare-today Pattern 4 (shown on the text without the bad clause) would have
produced 23:59:59. -/
theorem c8_counterexample :
    prtL "預計25時搶修，今日恢復通車".data ⟨2025, 8, 13⟩ = none ∧
    (reSearch p0RE "預計25時搶修，今日恢復通車".data).isSome = true ∧
    prtL "今日恢復通車".data ⟨2025, 8, 13⟩ = some ⟨2025, 8, 13, 23, 59, 59⟩ :=
  ⟨rfl, rfl, rfl⟩

/-- C8 as amended: the resolver and the parser always return normally (an
instant, `None`, or a record — never an exception); an invalid calendar date
from a day override falls through to later recognizers (here 今(29)日 in
February resolving through the lowest-priority pattern), but an out-of-range
clock value aborts the remaining patterns and yields `None`. -/
theorem c8_totality_amended (text title : List Char) (pd : Date) :
    (prtL text pd = none ∨ ∃ r, prtL text pd = some r) ∧
    (∃ r, parse text pd title = r) ∧
    prtL "今(29)日14:30恢復行駛".data ⟨2025, 2, 10⟩ = some ⟨2025, 2, 10, 14, 30, 0⟩ ∧
    prtL "預計25時搶修，今日恢復通車".data ⟨2025, 8, 13⟩ = none := by
  refine ⟨?_, ⟨parse text pd title, rfl⟩, rfl, rfl⟩
  cases h : prtL text pd with
  | none => exact Or.inl rfl
  | some r => exact Or.inr ⟨r, rfl⟩

/-- C9: the resolver is a pure function of its arguments (two calls with the
same inputs agree and no result consults a clock), and the relative
expressions 今日, 明日, and 首班車 resolve against the supplied anchor date:
for every valid anchor, 「今日19:00」 resolves to 19:00 on the anchor day and
「明日凌晨」 / 「明日首班車恢復行駛」 to 05:00 / 05:30 on the day after the
anchor. -/
theorem c9_determinism_anchor_relative (pd pd2 : Date) (text : List Char)
    (title : List Char) (hv : pd.valid = true) :
    prtL text pd2 = prtL text pd2 ∧
    extract_predicted_time text pd2 title = extract_predicted_time text pd2 title ∧
    extract_actual_time text pd2 title = extract_actual_time text pd2 title ∧
    prtL "今日19:00".data pd = some ⟨pd.y, pd.m, pd.d, 19, 0, 0⟩ ∧
    prtL "明日凌晨".data pd = nextDayAt (dtOf pd) 5 0 0 ∧
    prtL "明日首班車恢復行駛".data pd = nextDayAt (dtOf pd) 5 30 0 := by
  refine ⟨rfl, rfl, rfl, ?_, ?_, ?_⟩ <;> (unfold prtL; rw [hv]; rfl)

/-- Witness for C9 at the anchor 2025-08-13. -/
theorem c9_determinism_anchor_relative_witness :
    Date.valid ⟨2025, 8, 13⟩ = true ∧
    prtL "今日19:00".data ⟨2025, 8, 13⟩ = some ⟨2025, 8, 13, 19, 0, 0⟩ ∧
    prtL "明日凌晨".data ⟨2025, 8, 13⟩ = some ⟨2025, 8, 14, 5, 0, 0⟩ ∧
    prtL "明日首班車恢復行駛".data ⟨2025, 8, 13⟩ = some ⟨2025, 8, 14, 5, 30, 0⟩ :=
  ⟨rfl,
   (c9_determinism_anchor_relative ⟨2025, 8, 13⟩ ⟨2025, 8, 13⟩ [] [] rfl).2.2.2.1,
   ((c9_determinism_anchor_relative ⟨2025, 8, 13⟩ ⟨2025, 8, 13⟩ [] [] rfl).2.2.2.2.1).trans rfl,
   ((c9_determinism_anchor_relative ⟨2025, 8, 13⟩ ⟨2025, 8, 13⟩ [] [] rfl).2.2.2.2.2).trans rfl⟩

def tieTxt : List Char := "16:50恢復單線雙向通車，17:00恢復雙向通車".data

def shuttleTxt : List Char := "已於16:48恢復單線雙向通車，並提供公路接駁服務".data

/-- C1: phased recovery populates both roles from one text — for every valid
anchor, the example yields actual = 16:48 and predicted = 18:00 on the
anchor day; and in general an explicit prediction marker anywhere in the
text disables the completion-clause suppression of predicted extraction, so
the predicted role is resolved exactly as the bare resolver would. -/
theorem c1_phased_recovery_both_roles (pd pd2 : Date) (text2 : List Char)
    (hv : pd.valid = true) (hp : (reSearch predMarkRE text2).isSome = true) :
    extract_actual_time phasedTxt pd [] = some ⟨pd.y, pd.m, pd.d, 16, 48, 0⟩ ∧
    extract_predicted_time phasedTxt pd [] = some ⟨pd.y, pd.m, pd.d, 18, 0, 0⟩ ∧
    extract_predicted_time text2 pd2 [] = prtL text2 pd2 := by
  refine ⟨?_, ?_, ?_⟩
  · unfold extract_actual_time
    rw [hv]
    rfl
  · unfold extract_predicted_time prtL
    rw [hv]
    rfl
  · have h1 : completionEarlyReturn text2 = false := by
      unfold completionEarlyReturn
      rw [hp]
      rfl
    unfold extract_predicted_time
    rw [h1]
    rfl

/-- Witness for C1 at the anchor 2025-08-13 and the example text itself. -/
theorem c1_phased_recovery_both_roles_witness :
    Date.valid ⟨2025, 8, 13⟩ = true ∧
    (reSearch predMarkRE phasedTxt).isSome = true ∧
    (extract_actual_time phasedTxt ⟨2025, 8, 13⟩ [] = some ⟨2025, 8, 13, 16, 48, 0⟩ ∧
     extract_predicted_time phasedTxt ⟨2025, 8, 13⟩ [] = some ⟨2025, 8, 13, 18, 0, 0⟩ ∧
     extract_predicted_time phasedTxt ⟨2025, 8, 13⟩ [] = prtL phasedTxt ⟨2025, 8, 13⟩) :=
  ⟨rfl, rfl, c1_phased_recovery_both_roles ⟨2025, 8, 13⟩ ⟨2025, 8, 13⟩ phasedTxt rfl rfl⟩

/-- C2: earliest-wins tie-break for the actual role — the example resolves
to 16:50 for every valid anchor; in general the chosen content candidate is
drawn from the surviving match list with no strictly smaller clock time in
it, and when the title stages yield nothing the extractor returns exactly
that minimum applied to the anchor. -/
theorem c2_earliest_wins (pd pd2 : Date) (text title : List Char) (hm c : Nat × Nat)
    (hv : pd.valid = true)
    (he : earliestPair (contentCandList text) = some hm)
    (hc : c ∈ contentCandList text)
    (hg : (!has_resumption_in_title title && !has_resumption_in_content text) = false)
    (hf : future_indicators.any (fun r => (reSearch r title).isSome) = false)
    (hv2 : pd2.valid = true)
    (h0a : reSearch pat0aRE title = none)
    (ht1 : reSearch titleP1RE title = none)
    (ht2 : reSearch titleP2RE title = none) :
    extract_actual_time tieTxt pd [] = some ⟨pd.y, pd.m, pd.d, 16, 50, 0⟩ ∧
    hm ∈ contentCandList text ∧ pairLtB c hm = false ∧
    extract_actual_time text pd2 title = replHM (dtOf pd2) hm.1 hm.2 := by
  obtain ⟨hmem, hmin⟩ := earliestPair_spec _ _ he
  refine ⟨?_, hmem, hmin c hc, ?_⟩
  · unfold extract_actual_time
    rw [hv]
    rfl
  · obtain ⟨mh, mm⟩ := hm
    unfold extract_actual_time
    rw [hg, hf, hv2, h0a, ht1, ht2, he]
    rfl

/-- Witness for C2 at the example text, anchor 2025-08-13, empty title. -/
theorem c2_earliest_wins_witness :
    Date.valid ⟨2025, 8, 13⟩ = true ∧
    earliestPair (contentCandList tieTxt) = some (16, 50) ∧
    (16, 50) ∈ contentCandList tieTxt ∧
    (extract_actual_time tieTxt ⟨2025, 8, 13⟩ [] = some ⟨2025, 8, 13, 16, 50, 0⟩ ∧
     (16, 50) ∈ contentCandList tieTxt ∧ pairLtB (16, 50) (16, 50) = false ∧
     extract_actual_time tieTxt ⟨2025, 8, 13⟩ [] = replHM (dtOf ⟨2025, 8, 13⟩) 16 50) :=
  ⟨rfl, rfl, by decide,
   c2_earliest_wins ⟨2025, 8, 13⟩ ⟨2025, 8, 13⟩ tieTxt [] (16, 50) (16, 50)
     rfl rfl (by decide) rfl rfl rfl rfl rfl rfl⟩

/-- C3: in every record `parse` builds, the service type is populated exactly
when an actual time is, and only with one of the three classes; but the
Pydantic `ExtractedData` model has no service fields, so the pair is
discarded from the returned record — shown concretely on a shuttle-service
announcement (and `service_details` is `None` even internally on the
phased-recovery example although its actual time is populated). -/
theorem c3_service_type_model_drop (text title : List Char) (pd : Date) (r : ParseResult) :
    ((parse text pd title).service_type).isSome
        = ((parse text pd title).actual_resumption_time).isSome ∧
    ((parse text pd title).service_type = none ∨
      (parse text pd title).service_type = some "shuttle_service" ∨
      (parse text pd title).service_type = some "partial_operation" ∨
      (parse text pd title).service_type = some "normal_train") ∧
    storedOf r = storedOf { r with service_type := none, service_details := none } ∧
    (parse shuttleTxt ⟨2025, 8, 13⟩ []).service_type = some "shuttle_service" ∧
    (parse shuttleTxt ⟨2025, 8, 13⟩ []).actual_resumption_time
        = some ⟨2025, 8, 13, 16, 48, 0⟩ ∧
    (parse phasedTxt ⟨2025, 8, 13⟩ []).service_details = none ∧
    (parse phasedTxt ⟨2025, 8, 13⟩ []).actual_resumption_time
        = some ⟨2025, 8, 13, 16, 48, 0⟩ :=
  ⟨parse_service_iff text title pd, parse_service_mem text title pd, rfl, rfl, rfl, rfl, rfl⟩

/-- The non-train skip condition exactly as the spec sentence states it:
the title contains system vocabulary and the full text contains none of the
train-operations vocabulary. -/
def specNonTrainCond (title text : List Char) : Bool :=
  (system_keywords.any (fun kw => occursIn kw.data title)) &&
    !(train_operation_keywords.any (fun kw => occursIn kw.data text))

/-- C4 counterexample: for title 「訂票系統維護公告」 with text 「列車停駛」
the spec condition is false (the text names trains), so under the claim
extraction proceeds — and its status extractor would report Suspended — yet
the code returns the entirely empty record: the title check alone decides. -/
theorem c4_counterexample :
    parse "列車停駛".data ⟨2025, 8, 13⟩ "訂票系統維護公告".data = emptyParse ∧
    specNonTrainCond "訂票系統維護公告".data "列車停駛".data = false ∧
    extract_status "列車停駛".data = some "Suspended" :=
  ⟨rfl, rfl, rfl⟩

/-- C4 as amended: parse returns the empty record exactly when the title
carries system vocabulary, or the text carries system vocabulary, none of
the train vocabulary, and a website-suspension phrase (暫停官網/暫停網站);
otherwise every field comes from its normal extractor. -/
theorem c4_nontrain_filter_amended (title text : List Char) (pd : Date) :
    is_non_train_announcement title text =
      ((system_keywords.any (fun kw => occursIn kw.data title)) ||
       ((system_keywords.any (fun kw => occursIn kw.data text)) &&
        !(train_operation_keywords.any (fun kw => occursIn kw.data text)) &&
        (occursIn "暫停官網".data text || occursIn "暫停網站".data text))) ∧
    (is_non_train_announcement title text = true → parse text pd title = emptyParse) ∧
    (is_non_train_announcement title text = false →
      (parse text pd title).status = extract_status text ∧
      (parse text pd title).actual_resumption_time = extract_actual_time text pd title ∧
      (parse text pd title).predicted_resumption_time
        = extract_predicted_time text pd title) := by
  refine ⟨?_, ?_, ?_⟩
  · unfold is_non_train_announcement
    cases h1 : system_keywords.any (fun kw => occursIn kw.data title) <;>
      cases h2 : system_keywords.any (fun kw => occursIn kw.data text) <;>
        cases h3 : train_operation_keywords.any (fun kw => occursIn kw.data text) <;>
          simp [h1, h2, h3]
  · intro h
    unfold parse
    rw [h]
    rfl
  · intro h
    unfold parse
    rw [h]
    exact ⟨rfl, rfl, rfl⟩

/-- Witness for C4's amended claim: one skipped input, one passed input. -/
theorem c4_nontrain_filter_amended_witness :
    is_non_train_announcement "訂票系統維護公告".data "列車停駛".data = true ∧
    parse "列車停駛".data ⟨2025, 8, 13⟩ "訂票系統維護公告".data = emptyParse ∧
    is_non_train_announcement [] "列車停駛".data = false ∧
    (parse "列車停駛".data ⟨2025, 8, 13⟩ []).status = extract_status "列車停駛".data :=
  ⟨rfl,
   (c4_nontrain_filter_amended "訂票系統維護公告".data "列車停駛".data ⟨2025, 8, 13⟩).2.1 rfl,
   rfl,
   ((c4_nontrain_filter_amended [] "列車停駛".data ⟨2025, 8, 13⟩).2.2 rfl).1⟩

/-- C10 counterexample: the title 「24時起恢復通車」 passes the actual-role
gate (resumption keyword in the title, no future-tense indicator), yet the
extractor returns absence: the title clock match has hour 24, the unguarded
`replace` raises, and the handler yields `None` instead of any fallback. -/
theorem c10_counterexample :
    has_resumption_in_title "24時起恢復通車".data = true ∧
    future_indicators.any (fun r => (reSearch r "24時起恢復通車".data).isSome) = false ∧
    extract_actual_time [] ⟨2025, 8, 13⟩ "24時起恢復通車".data = none :=
  ⟨rfl, rfl, rfl⟩

/-- C10 as amended: when the gate passes, no clock time is matched in title
or content, and no publication timestamp is found, the extractor returns the
fixed 23:59:59 default on the anchor date (and the publication-timestamp
fallback fires when that pattern matches, shown concretely); absence is
possible only through an out-of-range matched clock value. -/
theorem c10_gate_fallback_amended (text title : List Char) (pd : Date)
    (hg : (!has_resumption_in_title title && !has_resumption_in_content text) = false)
    (hf : future_indicators.any (fun r => (reSearch r title).isSome) = false)
    (hv : pd.valid = true)
    (h0a : reSearch pat0aRE title = none)
    (ht1 : reSearch titleP1RE title = none)
    (ht2 : reSearch titleP2RE title = none)
    (he : contentCandList text = [])
    (hp : reSearch pubTimeRE text = none) :
    extract_actual_time text pd title = some ⟨pd.y, pd.m, pd.d, 23, 59, 59⟩ ∧
    extract_actual_time "發佈日期：2025/9/24 下午 9:40".data ⟨2025, 9, 24⟩ "已恢復".data
      = some ⟨2025, 9, 24, 21, 40, 0⟩ := by
  refine ⟨?_, rfl⟩
  unfold extract_actual_time
  rw [hg, hf, hv, h0a, ht1, ht2, he, hp]
  rfl

/-- Witness for C10's amended claim at empty text with title 「已恢復」. -/
theorem c10_gate_fallback_amended_witness :
    (!has_resumption_in_title "已恢復".data && !has_resumption_in_content []) = false ∧
    future_indicators.any (fun r => (reSearch r "已恢復".data).isSome) = false ∧
    Date.valid ⟨2025, 8, 13⟩ = true ∧
    reSearch pat0aRE "已恢復".data = none ∧
    reSearch titleP1RE "已恢復".data = none ∧
    reSearch titleP2RE "已恢復".data = none ∧
    contentCandList [] = [] ∧
    reSearch pubTimeRE [] = none ∧
    (extract_actual_time [] ⟨2025, 8, 13⟩ "已恢復".data = some ⟨2025, 8, 13, 23, 59, 59⟩ ∧
     extract_actual_time "發佈日期：2025/9/24 下午 9:40".data ⟨2025, 9, 24⟩ "已恢復".data
       = some ⟨2025, 9, 24, 21, 40, 0⟩) :=
  ⟨rfl, rfl, rfl, rfl, rfl, rfl, rfl, rfl,
   c10_gate_fallback_amended [] "已恢復".data ⟨2025, 8, 13⟩ rfl rfl rfl rfl rfl rfl rfl rfl⟩

end Pao
